import Mathlib

/-!
Verification of the tinygpusim GPU pipeline simulator.

Shallow embedding of the Python sources under `src/tinygpusim/`:
pure methods become Lean functions, mutating methods become functions
from the old state to the new state (paired with the returned value or
a possible raised error), Python `int` becomes `Int` (or `Nat` where the
value is a length/count that the source never makes negative), Python
insertion-ordered `dict`s become association lists, and Python `deque`s
and `list`s become `List`s.
-/

/-- Python error values raised by the modelled code.  Python attaches
messages to these; the messages play no role in control flow, so only
the error class is modelled. -/
inductive PyErr where
  | valueError
  | indexError
  | keyError
  | attributeError
  | nameError
  | typeError
  deriving DecidableEq

/-- Python `d[k]` lookup on an insertion-ordered dict modelled as an
association list: first binding for the key, if any. -/
def dictGet {κ α : Type} [DecidableEq κ] (k : κ) : List (κ × α) → Option α
  | [] => none
  | (k', v) :: rest => if k' = k then some v else dictGet k rest

/-- Python `d[k] = v`: update the existing binding in place (keeping its
position, as insertion-ordered dicts do) or append a new one. -/
def dictSet {κ α : Type} [DecidableEq κ] (k : κ) (v : α) : List (κ × α) → List (κ × α)
  | [] => [(k, v)]
  | (k', v') :: rest => if k' = k then (k, v) :: rest else (k', v') :: dictSet k v rest

/-- Python `del d[k]`: drop the binding for the key. -/
def dictDel {κ α : Type} [DecidableEq κ] (k : κ) : List (κ × α) → List (κ × α)
  | [] => []
  | (k', v') :: rest => if k' = k then rest else (k', v') :: dictDel k rest

/-! ## Command objects

The objects handed to the controlling layer are duck-typed: the command
processor reads `.type`, the DMA engine reads `.src_addr`, `.dst_addr`
and `.size`, and the async compute engine reads `.name`.  No class in
the sources declares all of these (`computation_entities.Kernel` has
only `name`/`args`, `command_generator.Command` only
`type`/`parameters`), so the runtime command object is modelled as one
record carrying every consumed attribute. -/

structure KernelCmd where
  type : String
  name : Nat
  src_addr : Int
  dst_addr : Int
  size : Int
  deriving DecidableEq

/-- An in-bounds `memory_copy` command. -/
def copyCmd : KernelCmd :=
  { type := "memory_copy", name := 0, src_addr := 0, dst_addr := 0, size := 4 }

/-- A second, distinct in-bounds `memory_copy` command. -/
def copyCmd2 : KernelCmd :=
  { type := "memory_copy", name := 1, src_addr := 0, dst_addr := 0, size := 2 }

/-- A kernel-launch command with a given name. -/
def launchCmd (name : Nat) : KernelCmd :=
  { type := "kernel_launch", name := name, src_addr := 0, dst_addr := 0, size := 0 }

/-! ## Computation entities (`gpu/computation_entities/kernel.py`)

`Kernel`, `Workgroup` and `Wavefront` are declared as plain unfrozen
dataclasses, so instances compare equal exactly when their fields do —
and are unhashable (`__eq__` is generated, so `__hash__` is `None`),
which matters below.  The `Kernel` dataclass declares only
`name`/`args`, but the kernel objects that actually flow at runtime —
from the command generator through the command processor into ACEs,
workgroups and wavefronts — are the duck-typed command records modelled
by `KernelCmd`, so the `kernel` fields below are `KernelCmd`s. -/

structure Workgroup where
  kernel : KernelCmd
  deriving DecidableEq

structure Wavefront where
  kernel : KernelCmd
  workgroup : Workgroup
  deriving DecidableEq

/-! ## Instruction sequencer (`gpu/shader/compute_unit.py`, class
`InstructionSequencer`)

Only the state mutated by `add_wavefront` / `remove_wavefront` is
modelled; the fetch/issue machinery and the cache collaborators
(`l1icache`, `l2cache`, `dram`, all `None` when a `ComputeUnit` builds
its sequencer) are not touched by the claims.  Instructions are
strings; per-wavefront dicts are association lists — ones that stay
empty in every reachable state, because each write to them raises
first: `compute_unit.py` never imports `deque` (only `typing.Deque`),
so `deque()` raises `NameError`, and a `Wavefront` (unfrozen dataclass)
is unhashable, so using it as a dict key raises `TypeError`. -/

structure InstructionSequencer where
  num_pools : Nat
  slots_per_pool : Nat
  wavefront_pools : List (List Wavefront)
  current_pool : Nat
  instruction_buffers : List (Wavefront × List String)
  program_counters : List (Wavefront × Int)
  executing_wavefronts : List (Wavefront × Bool)
  l1i_accesses : Nat
  l1i_misses : Nat
  l2_accesses : Nat
  l2_misses : Nat
  deriving DecidableEq

/-- `InstructionSequencer.__init__`: 4 pools of `max_wavefront_slots // 4`
slots each, empty tracking dicts, zeroed statistics. -/
def seqInit (max_wavefront_slots : Nat) : InstructionSequencer :=
  { num_pools := 4
    slots_per_pool := max_wavefront_slots / 4
    wavefront_pools := List.replicate 4 []
    current_pool := 0
    instruction_buffers := []
    program_counters := []
    executing_wavefronts := []
    l1i_accesses := 0
    l1i_misses := 0
    l2_accesses := 0
    l2_misses := 0 }

/-- The pool scan in `add_wavefront`: append the wavefront to the first
pool with fewer than `slots_per_pool` entries, or report that every pool
is full. -/
def addToPools (spp : Nat) (w : Wavefront) : List (List Wavefront) → Option (List (List Wavefront))
  | [] => none
  | p :: ps =>
      if p.length < spp then some ((p ++ [w]) :: ps)
      else (addToPools spp w ps).map (p :: ·)

/-- The pool scan in `remove_wavefront`: remove the first occurrence of
the wavefront from the first pool containing it, or report absence. -/
def removeFromPools (w : Wavefront) : List (List Wavefront) → Option (List (List Wavefront))
  | [] => none
  | p :: ps =>
      if w ∈ p then some (p.erase w :: ps)
      else (removeFromPools w ps).map (p :: ·)

/-- `InstructionSequencer.add_wavefront`: append the wavefront to the
first non-full pool — and then crash: the next line evaluates
`deque()`, which raises `NameError` (never imported), after the pool
append and before the buffer / program-counter / executing-flag
assignments (which would themselves raise `TypeError`, the key being
unhashable) — so `return True` is unreachable.  When every pool is full
the scan falls through and returns `False` with no mutation. -/
def InstructionSequencer.add_wavefront (w : Wavefront) (sq : InstructionSequencer) :
    InstructionSequencer × Except PyErr Bool :=
  match addToPools sq.slots_per_pool w sq.wavefront_pools with
  | some pools => ({ sq with wavefront_pools := pools }, .error .nameError)
  | none => (sq, .ok false)

/-- `InstructionSequencer.remove_wavefront`: remove the wavefront from
the first pool holding it — and then crash: `del
self.instruction_buffers[wavefront]` hashes the key and raises
`TypeError` (a `Wavefront` is unhashable), after the pool removal and
before the remaining deletions — so `return True` is unreachable.  When
no pool holds the wavefront the scan falls through and returns `False`
with no mutation. -/
def InstructionSequencer.remove_wavefront (w : Wavefront) (sq : InstructionSequencer) :
    InstructionSequencer × Except PyErr Bool :=
  match removeFromPools w sq.wavefront_pools with
  | some pools => ({ sq with wavefront_pools := pools }, .error .typeError)
  | none => (sq, .ok false)

/-! ## Compute unit (`gpu/shader/compute_unit.py`, class `ComputeUnit`)

The `local_data_share` collaborator is stored by `__init__` and never
read or written by the modelled operations, so it is not carried in the
state. -/

structure ComputeUnit where
  wavefront_slots : List Wavefront
  max_wavefront_slots : Nat
  max_sgpr : Int
  used_sgpr : Int
  max_vgpr : Int
  used_vgpr : Int
  max_lds : Int
  used_lds : Int
  instruction_sequencer : InstructionSequencer
  cycle_count : Nat
  deriving DecidableEq

/-- `ComputeUnit.__init__`: empty ledgers, fixed maxima (40 slots,
800 SGPRs, 256 VGPRs, 64 KiB LDS), fresh sequencer. -/
def cuInit : ComputeUnit :=
  { wavefront_slots := []
    max_wavefront_slots := 40
    max_sgpr := 800
    used_sgpr := 0
    max_vgpr := 256
    used_vgpr := 0
    max_lds := 64 * 1024
    used_lds := 0
    instruction_sequencer := seqInit 40
    cycle_count := 0 }

/-- `ComputeUnit.has_resources_for_wavefront`: fixed per-wavefront costs
(32 SGPRs, 64 VGPRs, 2048 B LDS, one slot) checked against the four
ceilings. -/
def ComputeUnit.has_resources_for_wavefront (cu : ComputeUnit) (_wavefront : Wavefront) : Bool :=
  let sgpr_needed : Int := 32
  let vgpr_needed : Int := 64
  let lds_needed : Int := 2048
  decide (cu.wavefront_slots.length < cu.max_wavefront_slots)
    && decide (cu.used_sgpr + sgpr_needed ≤ cu.max_sgpr)
    && decide (cu.used_vgpr + vgpr_needed ≤ cu.max_vgpr)
    && decide (cu.used_lds + lds_needed ≤ cu.max_lds)

/-- `ComputeUnit.allocate_resources`: re-check the admission predicate
(returning `False` with no mutation on failure); when it passes, append
the wavefront to the slot list, charge the four ledgers, and call the
sequencer's `add_wavefront` — which appends to a pool and then raises
`NameError`, so the exception propagates out of `allocate_resources`
after the ledger mutations and `return True` is reached only in the
case (unreachable from a fresh unit) where every pool is full and
`add_wavefront` returns normally. -/
def ComputeUnit.allocate_resources (w : Wavefront) (cu : ComputeUnit) :
    ComputeUnit × Except PyErr Bool :=
  if cu.has_resources_for_wavefront w then
    let r := cu.instruction_sequencer.add_wavefront w
    ({ cu with
        wavefront_slots := cu.wavefront_slots ++ [w]
        used_sgpr := cu.used_sgpr + 32
        used_vgpr := cu.used_vgpr + 64
        used_lds := cu.used_lds + 2048
        instruction_sequencer := r.1 },
     match r.2 with
     | .error e => .error e
     | .ok _ => .ok true)
  else (cu, .ok false)

/-- `ComputeUnit.free_resources`: if the wavefront is registered, remove
its first occurrence from the slot list, refund the four ledgers, and
call the sequencer's `remove_wavefront` — which removes from the pool
and then raises `TypeError`, so the exception propagates after the
ledger mutations.  Freeing an unregistered wavefront is a clean
no-op. -/
def ComputeUnit.free_resources (w : Wavefront) (cu : ComputeUnit) :
    ComputeUnit × Option PyErr :=
  if w ∈ cu.wavefront_slots then
    let r := cu.instruction_sequencer.remove_wavefront w
    ({ cu with
        wavefront_slots := cu.wavefront_slots.erase w
        used_sgpr := cu.used_sgpr - 32
        used_vgpr := cu.used_vgpr - 64
        used_lds := cu.used_lds - 2048
        instruction_sequencer := r.1 },
     match r.2 with
     | .error e => some e
     | .ok _ => none)
  else (cu, none)

/-- A call in a client-visible history of a `ComputeUnit`. -/
inductive CUOp where
  | alloc (w : Wavefront)
  | free (w : Wavefront)

/-- One `ComputeUnit` method call.  A call may raise (the sequencer
registration crashes), but the exception propagates to the caller while
the unit object and the mutations made before the raise persist, so the
history continues on the returned state; abort-on-first-error histories
reach a subset of these states. -/
def cuStep (cu : ComputeUnit) (op : CUOp) : ComputeUnit :=
  match op with
  | .alloc w => (cu.allocate_resources w).1
  | .free w => (cu.free_resources w).1

/-- The state after a sequence of `allocate_resources` /
`free_resources` calls on a freshly constructed `ComputeUnit`. -/
def runCU (ops : List CUOp) : ComputeUnit :=
  ops.foldl cuStep cuInit

/-- The ledger invariant maintained by allocation and release: maxima
are the constructor constants and every used counter is the fixed
per-wavefront cost times the number of resident wavefronts, of which
there are at most four (the VGPR ceiling binds first). -/
def CUInv (cu : ComputeUnit) : Prop :=
  cu.max_wavefront_slots = 40 ∧ cu.max_sgpr = 800 ∧ cu.max_vgpr = 256 ∧ cu.max_lds = 64 * 1024 ∧
  cu.used_sgpr = 32 * cu.wavefront_slots.length ∧
  cu.used_vgpr = 64 * cu.wavefront_slots.length ∧
  cu.used_lds = 2048 * cu.wavefront_slots.length ∧
  cu.wavefront_slots.length ≤ 4

theorem cuInv_init : CUInv cuInit := by
  simp [CUInv, cuInit]

theorem cuInv_step (cu : ComputeUnit) (op : CUOp) (h : CUInv cu) : CUInv (cuStep cu op) := by
  obtain ⟨hslots, hsg, hvg, hlds, hus, huv, hul, hlen⟩ := h
  cases op with
  | alloc w =>
      by_cases hres : cu.has_resources_for_wavefront w
      · have hres' := hres
        simp only [ComputeUnit.has_resources_for_wavefront, Bool.and_eq_true,
          decide_eq_true_eq] at hres'
        obtain ⟨⟨⟨h1, h2⟩, h3⟩, h4⟩ := hres'
        have hlen4 : cu.wavefront_slots.length ≤ 3 := by
          rw [huv, hvg] at h3
          omega
        simp only [cuStep, ComputeUnit.allocate_resources, hres, if_pos]
        refine ⟨hslots, hsg, hvg, hlds, ?_, ?_, ?_, ?_⟩ <;>
          simp [List.length_append, hus, huv, hul] <;> omega
      · simp only [cuStep, ComputeUnit.allocate_resources, hres]
        exact ⟨hslots, hsg, hvg, hlds, hus, huv, hul, hlen⟩
  | free w =>
      by_cases hmem : w ∈ cu.wavefront_slots
      · have hpos : 0 < cu.wavefront_slots.length := List.length_pos.mpr
          (List.ne_nil_of_mem hmem)
        simp only [cuStep, ComputeUnit.free_resources, hmem, if_pos]
        refine ⟨hslots, hsg, hvg, hlds, ?_, ?_, ?_, ?_⟩ <;>
          simp [List.length_erase_of_mem hmem, hus, huv, hul] <;> omega
      · simp only [cuStep, ComputeUnit.free_resources, hmem, if_neg, if_false]
        exact ⟨hslots, hsg, hvg, hlds, hus, huv, hul, hlen⟩

theorem cuInv_foldl (ops : List CUOp) (cu : ComputeUnit) (h : CUInv cu) :
    CUInv (ops.foldl cuStep cu) := by
  induction ops generalizing cu with
  | nil => exact h
  | cons op rest ih => exact ih _ (cuInv_step cu op h)

/-- C1: after every sequence of `allocate_resources` / `free_resources`
calls on a freshly constructed `ComputeUnit`, the used amount of each of
the four resource classes (wavefront slots, scalar registers, vector
registers, LDS bytes) is at most that resource's fixed maximum; since
every prefix of a call sequence is itself a call sequence, the bound
holds at every point in time. -/
theorem C1_resource_ledger_bounded (ops : List CUOp) :
    (runCU ops).wavefront_slots.length ≤ (runCU ops).max_wavefront_slots ∧
    (runCU ops).used_sgpr ≤ (runCU ops).max_sgpr ∧
    (runCU ops).used_vgpr ≤ (runCU ops).max_vgpr ∧
    (runCU ops).used_lds ≤ (runCU ops).max_lds := by
  obtain ⟨hslots, hsg, hvg, hlds, hus, huv, hul, hlen⟩ := cuInv_foldl ops cuInit cuInv_init
  simp only [runCU]
  refine ⟨?_, ?_, ?_, ?_⟩
  · rw [hslots]; omega
  · rw [hsg, hus]; omega
  · rw [hvg, huv]; omega
  · rw [hlds, hul]; omega

/-- C9: freeing a wavefront that is not registered in the compute unit
(in particular one that was already freed) leaves the entire state —
all four ledger counters and the resident-wavefront list — unchanged,
and raises nothing (the membership guard fails before any mutation or
sequencer call). -/
theorem C9_free_unregistered_noop (cu : ComputeUnit) (w : Wavefront)
    (h : w ∉ cu.wavefront_slots) : cu.free_resources w = (cu, none) := by
  simp [ComputeUnit.free_resources, h]

/-- C9 witness: freeing an arbitrary wavefront on a fresh compute unit
is a clean no-op. -/
theorem C9_free_unregistered_noop_witness :
    cuInit.free_resources ⟨launchCmd 0, ⟨launchCmd 0⟩⟩ = (cuInit, none) :=
  C9_free_unregistered_noop cuInit ⟨launchCmd 0, ⟨launchCmd 0⟩⟩ (by simp [cuInit])

/-! ## Shader dispatch (`gpu/shader/shader_engine.py`)

`ShaderArray` is a list of compute units and `ShaderEngine` a list of
shader arrays, so the engine is modelled as a list of lists of compute
units.  `ShaderPipeInput.break_workgroup_into_wavefronts` collects
every compute unit of every array into `available_cus` (no resource
check) and, when any exist, calls `allocate_resources` on the first one
for each of the workgroup's four wavefronts in turn.  Because
`allocate_resources` raises `NameError` as soon as an admission check
passes, the loop stops at the first admitted wavefront and the
exception propagates out of `get_workgroup`; only when every check
fails (or there is no compute unit) does the loop finish and
`get_workgroup` return `True`. -/

structure ShaderPipeInput where
  shader_engine : List (List ComputeUnit)
  workgroup : Option Workgroup
  deriving DecidableEq

/-- The `for wavefront in wavefronts: target_cu.allocate_resources(...)`
loop: each returned boolean is discarded, but a raised error aborts the
loop and propagates, keeping the mutations made so far. -/
def allocLoop (cu : ComputeUnit) : List Wavefront → ComputeUnit × Option PyErr
  | [] => (cu, none)
  | w :: ws =>
      let r := cu.allocate_resources w
      match r.2 with
      | .error e => (r.1, some e)
      | .ok _ => allocLoop r.1 ws

/-- Mutating `available_cus[0]` in place: apply `f` to the first compute
unit in array-scan order (propagating its raised error), leaving
everything else alone (a clean no-op when no array holds a compute
unit). -/
def replaceFirstCU (f : ComputeUnit → ComputeUnit × Option PyErr) :
    List (List ComputeUnit) → List (List ComputeUnit) × Option PyErr
  | [] => ([], none)
  | [] :: rest =>
      let r := replaceFirstCU f rest
      ([] :: r.1, r.2)
  | (c :: cs) :: rest =>
      let r := f c
      ((r.1 :: cs) :: rest, r.2)

/-- `ShaderPipeInput.break_workgroup_into_wavefronts`: build the fixed
four wavefronts of the stored workgroup (equal dataclass values, since
a `Wavefront` holds only its kernel and workgroup) and run the
allocation loop on the first compute unit found. -/
def ShaderPipeInput.break_workgroup_into_wavefronts (spi : ShaderPipeInput) :
    ShaderPipeInput × Option PyErr :=
  match spi.workgroup with
  | none => (spi, none)
  | some wg =>
      let wavefronts := List.replicate 4 (⟨wg.kernel, wg⟩ : Wavefront)
      let r := replaceFirstCU (fun cu => allocLoop cu wavefronts) spi.shader_engine
      ({ spi with shader_engine := r.1 }, r.2)

/-- `ShaderPipeInput.get_workgroup`: store the workgroup and break it
into wavefronts; `return True` is reached only when the break raised
nothing, otherwise the exception propagates to the caller. -/
def ShaderPipeInput.get_workgroup (wg : Workgroup) (spi : ShaderPipeInput) :
    Except PyErr Bool × ShaderPipeInput :=
  let r := ({ spi with workgroup := some wg } : ShaderPipeInput).break_workgroup_into_wavefronts
  match r.2 with
  | some e => (.error e, r.1)
  | none => (.ok true, r.1)

theorem allocate_guard_false (cu : ComputeUnit) (w : Wavefront)
    (h : cu.has_resources_for_wavefront w = false) :
    cu.allocate_resources w = (cu, .ok false) := by
  simp [ComputeUnit.allocate_resources, h]

theorem allocLoop_guard_false (n : Nat) (cu : ComputeUnit) (w : Wavefront)
    (h : cu.has_resources_for_wavefront w = false) :
    allocLoop cu (List.replicate n w) = (cu, none) := by
  induction n with
  | zero => rfl
  | succ k ih =>
      simp [List.replicate_succ, allocLoop, allocate_guard_false cu w h, ih]

theorem allocate_guard_true_slots (cu : ComputeUnit) (w : Wavefront)
    (h : cu.has_resources_for_wavefront w = true) :
    (cu.allocate_resources w).1.wavefront_slots = cu.wavefront_slots ++ [w] := by
  simp [ComputeUnit.allocate_resources, h]

theorem allocate_guard_true_raises (cu : ComputeUnit) (w : Wavefront)
    (h : cu.has_resources_for_wavefront w = true)
    (hadd : (cu.instruction_sequencer.add_wavefront w).2 = .error .nameError) :
    (cu.allocate_resources w).2 = .error .nameError := by
  simp [ComputeUnit.allocate_resources, h, hadd]

theorem replaceFirstCU_flatten (f : ComputeUnit → ComputeUnit × Option PyErr) :
    ∀ (arrs : List (List ComputeUnit)) (c : ComputeUnit) (rest : List ComputeUnit),
      arrs.flatten = c :: rest →
        (replaceFirstCU f arrs).1.flatten = (f c).1 :: rest ∧
        (replaceFirstCU f arrs).2 = (f c).2 := by
  intro arrs
  induction arrs with
  | nil => intro c rest h; simp at h
  | cons a as ih =>
      intro c rest h
      cases a with
      | nil =>
          simp only [List.flatten_cons, List.nil_append] at h
          obtain ⟨h1, h2⟩ := ih c rest h
          constructor <;> simp [replaceFirstCU, h1, h2]
      | cons c0 cs =>
          simp only [List.flatten_cons, List.cons_append] at h
          obtain ⟨rfl, hrest⟩ := List.cons.inj h
          constructor <;> simp [replaceFirstCU, ← hrest]

/-- The compute unit after four admissions: the VGPR ledger reaches its
ceiling (4 × 64 = 256), so a fifth admission check fails. -/
def cuFull : ComputeUnit :=
  ((((cuInit.allocate_resources ⟨launchCmd 0, ⟨launchCmd 0⟩⟩).1.allocate_resources
      ⟨launchCmd 0, ⟨launchCmd 0⟩⟩).1.allocate_resources
      ⟨launchCmd 0, ⟨launchCmd 0⟩⟩).1.allocate_resources ⟨launchCmd 0, ⟨launchCmd 0⟩⟩).1

/-- C2 counterexample: on a fresh single-compute-unit engine the
hand-off admits exactly 1 of the workgroup's 4 wavefronts — a strict
non-empty subset — and raises `NameError` (not `InsufficientResources`);
on an engine whose unit is full, nothing is admitted yet the hand-off
reports success instead of failing.  Both outcomes refute all-or-nothing
admission with an `InsufficientResources` failure. -/
theorem C2_one_admitted_counterexample :
    (ShaderPipeInput.get_workgroup ⟨launchCmd 1⟩ ⟨[[cuInit]], none⟩).1 = .error .nameError ∧
    (((ShaderPipeInput.get_workgroup ⟨launchCmd 1⟩
        ⟨[[cuInit]], none⟩).2.shader_engine.flatten.headD cuInit).wavefront_slots.count
      (⟨launchCmd 1, ⟨launchCmd 1⟩⟩ : Wavefront)) = 1 ∧
    ¬((1 : Nat) = 0 ∨ (1 : Nat) = 4) ∧
    (ShaderPipeInput.get_workgroup ⟨launchCmd 1⟩ ⟨[[cuFull]], none⟩).1 = .ok true ∧
    (((ShaderPipeInput.get_workgroup ⟨launchCmd 1⟩
        ⟨[[cuFull]], none⟩).2.shader_engine.flatten.headD cuInit).wavefront_slots.count
      (⟨launchCmd 1, ⟨launchCmd 1⟩⟩ : Wavefront)) = 0 := by
  refine ⟨rfl, by decide, by decide, rfl, by decide⟩

/-- C2 amended: the hand-off is neither atomic nor ever a reported
`InsufficientResources` failure.  With a first compute unit `c` in scan
order (all other units are untouched): if `c`'s admission check fails
for the workgroup's wavefront, no wavefront is admitted and
`get_workgroup` reports success (`True`); if the check passes (and the
sequencer registration raises, as it does whenever a pool has room —
always the case in states reachable from a fresh unit), exactly one of
the four wavefronts is admitted to `c` and the hand-off raises
`NameError` — a strict non-empty partial admission. -/
theorem C2_admission_one_or_none (arrs : List (List ComputeUnit)) (wg : Workgroup)
    (c : ComputeUnit) (rest : List ComputeUnit) (h : arrs.flatten = c :: rest) :
    (c.has_resources_for_wavefront ⟨wg.kernel, wg⟩ = false →
      (ShaderPipeInput.get_workgroup wg ⟨arrs, none⟩).1 = .ok true ∧
      (ShaderPipeInput.get_workgroup wg ⟨arrs, none⟩).2.shader_engine.flatten = c :: rest) ∧
    (c.has_resources_for_wavefront ⟨wg.kernel, wg⟩ = true →
      (c.instruction_sequencer.add_wavefront ⟨wg.kernel, wg⟩).2 = .error .nameError →
      (ShaderPipeInput.get_workgroup wg ⟨arrs, none⟩).1 = .error .nameError ∧
      (ShaderPipeInput.get_workgroup wg ⟨arrs, none⟩).2.shader_engine.flatten =
        (c.allocate_resources ⟨wg.kernel, wg⟩).1 :: rest ∧
      (c.allocate_resources ⟨wg.kernel, wg⟩).1.wavefront_slots =
        c.wavefront_slots ++ [⟨wg.kernel, wg⟩]) := by
  obtain ⟨hf1, hf2⟩ := replaceFirstCU_flatten
    (fun cu => allocLoop cu [⟨wg.kernel, wg⟩, ⟨wg.kernel, wg⟩, ⟨wg.kernel, wg⟩, ⟨wg.kernel, wg⟩])
    arrs c rest h
  constructor
  · intro hg
    have hstep := allocate_guard_false c ⟨wg.kernel, wg⟩ hg
    have hloop : allocLoop c
        [⟨wg.kernel, wg⟩, ⟨wg.kernel, wg⟩, ⟨wg.kernel, wg⟩, ⟨wg.kernel, wg⟩] = (c, none) := by
      simp [allocLoop, hstep]
    constructor
    · simp only [ShaderPipeInput.get_workgroup, ShaderPipeInput.break_workgroup_into_wavefronts]
      simp [hf2, hloop]
    · simp only [ShaderPipeInput.get_workgroup, ShaderPipeInput.break_workgroup_into_wavefronts]
      simp [hf1, hf2, hloop]
  · intro hg hadd
    have hr2 := allocate_guard_true_raises c ⟨wg.kernel, wg⟩ hg hadd
    have hloop : allocLoop c
        [⟨wg.kernel, wg⟩, ⟨wg.kernel, wg⟩, ⟨wg.kernel, wg⟩, ⟨wg.kernel, wg⟩] =
        ((c.allocate_resources ⟨wg.kernel, wg⟩).1, some .nameError) := by
      simp [allocLoop, hr2]
    refine ⟨?_, ?_, allocate_guard_true_slots c ⟨wg.kernel, wg⟩ hg⟩
    · simp only [ShaderPipeInput.get_workgroup, ShaderPipeInput.break_workgroup_into_wavefronts]
      simp [hf2, hloop]
    · simp only [ShaderPipeInput.get_workgroup, ShaderPipeInput.break_workgroup_into_wavefronts]
      simp [hf1, hf2, hloop]

/-- C2 amended witness: a fresh single-unit engine instantiates the
check-passes branch: the hand-off raises `NameError` with exactly one
wavefront appended to the first unit's slots. -/
theorem C2_admission_one_or_none_witness :
    (ShaderPipeInput.get_workgroup ⟨launchCmd 1⟩ ⟨[[cuInit]], none⟩).1 = .error .nameError ∧
    (ShaderPipeInput.get_workgroup ⟨launchCmd 1⟩ ⟨[[cuInit]], none⟩).2.shader_engine.flatten =
      (cuInit.allocate_resources ⟨launchCmd 1, ⟨launchCmd 1⟩⟩).1 :: [] ∧
    (cuInit.allocate_resources ⟨launchCmd 1, ⟨launchCmd 1⟩⟩).1.wavefront_slots =
      cuInit.wavefront_slots ++ [⟨launchCmd 1, ⟨launchCmd 1⟩⟩] :=
  (C2_admission_one_or_none [[cuInit]] ⟨launchCmd 1⟩ cuInit [] (by simp)).2 (by rfl) (by rfl)

/-! ## DRAM (`gpu/mem/dram.py`, class `DRAMController`)

Bytes are `Nat`s, the storage a `List Nat`, addresses Python ints
(`Int`).  The `check_address` decorator validates only the start
address against `address_limit = capacity - 1`; the access size is
never consulted.  Python slice reads truncate at the end of the
bytearray, and a slice assignment `storage[a : a + len(data)] = data`
whose right end passes the current length grows the bytearray. -/

structure DRAMController where
  capacity : Int
  storage : List Nat
  address_limit : Int
  deriving DecidableEq

/-- `DRAMController.__init__`: zero-filled storage of the given
capacity, `address_limit = capacity - 1`. -/
def dramInit (capacity : Nat) : DRAMController :=
  { capacity := capacity
    storage := List.replicate capacity 0
    address_limit := (capacity : Int) - 1 }

/-- The `check_address` guard: raise `ValueError` (the code's
`AddressOutOfRange` report) unless `0 <= address <= address_limit`. -/
def DRAMController.check_address (dram : DRAMController) (address : Int) : Bool :=
  decide (0 ≤ address ∧ address ≤ dram.address_limit)

/-- `DRAMController.load`: after `check_address`, return
`storage[address : address + size]` (truncated at the end of storage,
as Python slicing is). -/
def DRAMController.load (address : Int) (size : Nat) (dram : DRAMController) :
    Except PyErr (List Nat) :=
  if dram.check_address address then
    .ok ((dram.storage.drop address.toNat).take size)
  else .error .valueError

/-- `DRAMController.store`: after `check_address`, perform the slice
assignment `storage[address : address + len(data)] = data`, which
replaces that range and extends the storage when the range passes its
end.  Only `storage` changes: `capacity` and `address_limit` keep their
constructed values. -/
def DRAMController.store (address : Int) (data : List Nat) (dram : DRAMController) :
    Except PyErr DRAMController :=
  if dram.check_address address then
    .ok { dram with
            storage := dram.storage.take address.toNat ++ data ++
              dram.storage.drop (address.toNat + data.length) }
  else .error .valueError

/-- C3 counterexample: on a 4-byte DRAM, `store(3, [9, 9])` writes past
the end (`address + size = 5 > 4`) yet succeeds — `check_address`
ignores the size — and the storage grows to 5 bytes, no longer the
capacity; the claim instead requires an `AddressOutOfRange` failure
here (`a = capacity - size + 1` with `s = 2`). -/
theorem C3_out_of_range_store_succeeds :
    ((3 : Int) < 0 ∨ (3 : Int) + 2 > 4) ∧
    DRAMController.store 3 [9, 9] (dramInit 4) =
      .ok ⟨4, [0, 0, 0, 9, 9], 3⟩ ∧
    ([0, 0, 0, 9, 9] : List Nat).length ≠ 4 := by
  refine ⟨by omega, by rfl, by decide⟩

/-- C3 amended: `load` and `store` fail (with the code's `ValueError`
standing for `AddressOutOfRange`) exactly when `address < 0` or
`address > capacity - 1`; the size of the access is not checked.  In
particular a load or store at `address = capacity - size` succeeds, but
so does one at `address = capacity - size + 1` whenever that address is
still at most `capacity - 1`; a successful store leaves the storage at
length `max capacity (address + len(data))`, which exceeds the capacity
when the data runs past the end. -/
theorem C3_bounds_check_ignores_size (capacity : Nat) (address : Int) (size : Nat)
    (data : List Nat) :
    ((∃ e, DRAMController.load address size (dramInit capacity) = .error e) ↔
      (address < 0 ∨ address > (capacity : Int) - 1)) ∧
    ((∃ e, DRAMController.store address data (dramInit capacity) = .error e) ↔
      (address < 0 ∨ address > (capacity : Int) - 1)) ∧
    (∀ dram', DRAMController.store address data (dramInit capacity) = .ok dram' →
      dram'.storage.length = max capacity (address.toNat + data.length)) := by
  refine ⟨?_, ?_, ?_⟩
  · by_cases h : (dramInit capacity).check_address address
    · simp only [DRAMController.load, h, if_true]
      simp only [DRAMController.check_address, dramInit, decide_eq_true_eq] at h
      constructor
      · rintro ⟨e, he⟩; cases he
      · intro hc; omega
    · simp only [DRAMController.load, h, if_false]
      simp only [DRAMController.check_address, dramInit, decide_eq_true_eq] at h
      constructor
      · intro _; omega
      · intro _; exact ⟨.valueError, rfl⟩
  · by_cases h : (dramInit capacity).check_address address
    · simp only [DRAMController.store, h, if_true]
      simp only [DRAMController.check_address, dramInit, decide_eq_true_eq] at h
      constructor
      · rintro ⟨e, he⟩; cases he
      · intro hc; omega
    · simp only [DRAMController.store, h, if_false]
      simp only [DRAMController.check_address, dramInit, decide_eq_true_eq] at h
      constructor
      · intro _; omega
      · intro _; exact ⟨.valueError, rfl⟩
  · intro dram' hok
    by_cases h : (dramInit capacity).check_address address
    · simp only [DRAMController.store, h, if_true, Except.ok.injEq] at hok
      have h' := h
      simp only [DRAMController.check_address, dramInit, decide_eq_true_eq] at h'
      have haddr : address.toNat ≤ capacity := by omega
      subst hok
      simp only [dramInit, List.length_append, List.length_take, List.length_drop,
        List.length_replicate]
      omega
    · simp only [DRAMController.store, h, if_false] at hok
      cases hok

/-- C3 amended witness: on a 4-byte DRAM, storing 2 bytes at address 1
is in bounds on both readings, succeeds, and keeps the storage at
length `max 4 3 = 4`. -/
theorem C3_bounds_check_ignores_size_witness :
    ((∃ e, DRAMController.load 1 2 (dramInit 4) = .error e) ↔
      ((1 : Int) < 0 ∨ (1 : Int) > (4 : Int) - 1)) ∧
    ((∃ e, DRAMController.store 1 [7, 7] (dramInit 4) = .error e) ↔
      ((1 : Int) < 0 ∨ (1 : Int) > (4 : Int) - 1)) ∧
    (⟨4, [0, 7, 7, 0], 3⟩ : DRAMController).storage.length =
      max 4 ((1 : Int).toNat + ([7, 7] : List Nat).length) :=
  ⟨(C3_bounds_check_ignores_size 4 1 2 [7, 7]).1,
   (C3_bounds_check_ignores_size 4 1 2 [7, 7]).2.1,
   (C3_bounds_check_ignores_size 4 1 2 [7, 7]).2.2 ⟨4, [0, 7, 7, 0], 3⟩ (by rfl)⟩

/-! ## Memory coalescing (`gpu/mem/texture_addressing.py`, class
`TextureAddressing`)

The `stats` dict has the fixed keys `total_requests`,
`coalesced_transactions` and `total_transactions`; it is modelled as
three fields.  Addresses and sizes are Python ints. -/

structure TextureAddressing where
  transaction_size : Int
  total_requests : Nat
  coalesced_transactions : Nat
  total_transactions : Nat
  deriving DecidableEq

/-- `TextureAddressing.__init__`. -/
def taInit (transaction_size : Int) : TextureAddressing :=
  { transaction_size := transaction_size
    total_requests := 0
    coalesced_transactions := 0
    total_transactions := 0 }

/-- Python tuple comparison on `(address, size)` pairs: lexicographic. -/
def pairLe (p q : Int × Int) : Bool :=
  decide (p.1 < q.1) || (decide (p.1 = q.1) && decide (p.2 ≤ q.2))

/-- Insert into an already sorted list, after any equal elements (the
stable placement Python's `sorted` gives). -/
def insertPair (x : Int × Int) : List (Int × Int) → List (Int × Int)
  | [] => [x]
  | y :: ys => if pairLe y x then y :: insertPair x ys else x :: y :: ys

/-- `sorted(zip(addresses, sizes))`: stable insertion sort under the
lexicographic order. -/
def sortPairs : List (Int × Int) → List (Int × Int)
  | [] => []
  | x :: xs => insertPair x (sortPairs xs)

/-- The merge loop of `coalesce_memory_requests`: carry the finished
regions and the current region's start and end; an access starting at
most `transaction_size` past the current end extends the region,
otherwise the region is emitted and a new one starts. -/
def coalesceLoop (tsize : Int) :
    List (Int × Int) → List (Int × Int) × Int × Int → List (Int × Int) × Int × Int
  | [], st => st
  | (addr, size) :: rest, (acc, cs, ce) =>
      if addr ≤ ce + tsize then coalesceLoop tsize rest (acc, cs, max ce (addr + size))
      else coalesceLoop tsize rest (acc ++ [(cs, ce - cs)], addr, addr + size)

/-- `TextureAddressing.coalesce_memory_requests`: empty input returns
`[]` with stats untouched; otherwise sort the zipped accesses, run the
merge loop seeded from the first access, emit the final region, and
update the three statistics counters.  Indexing `addr_size_pairs[0]`
raises `IndexError` when the zip is empty although `addresses` is not
(sizes exhausted). -/
def TextureAddressing.coalesce_memory_requests (addresses sizes : List Int)
    (ta : TextureAddressing) : Except PyErr (List (Int × Int)) × TextureAddressing :=
  if addresses = [] then (.ok [], ta)
  else
    let ta1 := { ta with total_requests := ta.total_requests + addresses.length }
    match sortPairs (addresses.zip sizes) with
    | [] => (.error .indexError, ta1)
    | (a0, s0) :: rest =>
        let (acc, cs, ce) := coalesceLoop ta1.transaction_size rest ([], a0, a0 + s0)
        let coalesced := acc ++ [(cs, ce - cs)]
        (.ok coalesced,
         { ta1 with
             coalesced_transactions := ta1.coalesced_transactions + coalesced.length
             total_transactions := ta1.total_transactions + addresses.length })

/-- C5 counterexample: coalescing addresses `{0, 4, 8, 70, 74}` of size
4 under transaction size 64 does not give the two transactions
`(0, 12)` and `(70, 8)` — address 70 starts within 64 bytes of the
region end 12 (gap 58), so the merge loop absorbs it. -/
theorem C5_two_transactions_refuted :
    (TextureAddressing.coalesce_memory_requests [0, 4, 8, 70, 74] [4, 4, 4, 4, 4]
        (taInit 64)).1 ≠ .ok [(0, 12), (70, 8)] := by
  intro h
  have : ([(0, 78)] : List (Int × Int)) = [(0, 12), (70, 8)] := by
    have heval : (TextureAddressing.coalesce_memory_requests [0, 4, 8, 70, 74] [4, 4, 4, 4, 4]
        (taInit 64)).1 = .ok [(0, 78)] := by rfl
    rw [heval] at h
    exact Except.ok.inj h
  simp at this

/-- C5 amended: those five requests coalesce into the single
transaction `(0, 78)` (one merged region from 0 to 78), and the stats
record 5 requests and 1 coalesced transaction. -/
theorem C5_single_transaction :
    (TextureAddressing.coalesce_memory_requests [0, 4, 8, 70, 74] [4, 4, 4, 4, 4]
        (taInit 64)).1 = .ok [(0, 78)] ∧
    ((TextureAddressing.coalesce_memory_requests [0, 4, 8, 70, 74] [4, 4, 4, 4, 4]
        (taInit 64)).2.total_requests = 5 ∧
     (TextureAddressing.coalesce_memory_requests [0, 4, 8, 70, 74] [4, 4, 4, 4, 4]
        (taInit 64)).2.coalesced_transactions = 1) :=
  ⟨rfl, rfl, rfl⟩

/-! ## L2 TLB (`gpu/mem/l2tlb.py`, class `L2TLB`)

`entries` is an insertion-ordered dict from virtual to physical page
numbers, modelled as an association list.  The `mmu` collaborator is
stored by `__init__` and never used by `lookup` / `insert` / `flush`,
so it is not carried.  Addresses are kept as `Nat` (page arithmetic on
non-negative ints). -/

structure L2TLB where
  size : Nat
  page_size : Nat
  entries : List (Nat × Nat)
  access_count : Nat
  hit_count : Nat
  miss_count : Nat
  deriving DecidableEq

/-- `L2TLB.__init__`. -/
def tlbInit (size page_size : Nat) : L2TLB :=
  { size := size
    page_size := page_size
    entries := []
    access_count := 0
    hit_count := 0
    miss_count := 0 }

/-- `L2TLB.lookup`: bump the access counter, split the virtual address
into page number and offset, and on a hit return the translated
physical address bumping the hit counter, else `None` bumping the miss
counter. -/
def L2TLB.lookup (virtual_address : Nat) (tlb : L2TLB) : (Option Nat × Bool) × L2TLB :=
  let tlb1 := { tlb with access_count := tlb.access_count + 1 }
  let vpn := virtual_address / tlb.page_size
  let offset := virtual_address % tlb.page_size
  match dictGet vpn tlb.entries with
  | some ppn =>
      ((some (ppn * tlb.page_size + offset), true),
       { tlb1 with hit_count := tlb1.hit_count + 1 })
  | none =>
      ((none, false), { tlb1 with miss_count := tlb1.miss_count + 1 })

/-- `L2TLB.insert`: compute the page numbers, pop the oldest entry
(`next(iter(entries))`, the head of the insertion order) when the table
is at capacity, then bind the new pair. -/
def L2TLB.insert (virtual_address physical_address : Nat) (tlb : L2TLB) : L2TLB :=
  let vpn := virtual_address / tlb.page_size
  let ppn := physical_address / tlb.page_size
  let entries1 := if tlb.entries.length ≥ tlb.size then tlb.entries.tail else tlb.entries
  { tlb with entries := dictSet vpn ppn entries1 }

/-- `L2TLB.flush`: clear all entries. -/
def L2TLB.flush (tlb : L2TLB) : L2TLB :=
  { tlb with entries := [] }

/-- C8: on a TLB of capacity 2 (page size 4096), inserting translations
for virtual pages 1, 2, 3 in order evicts page 1 on the third insert
(FIFO: oldest key first), so a later lookup inside page 1 misses while
lookups inside pages 2 and 3 hit. -/
theorem C8_tlb_fifo_eviction :
    ((((tlbInit 2 4096).insert (1 * 4096) (10 * 4096)).insert (2 * 4096)
        (20 * 4096)).insert (3 * 4096) (30 * 4096)).entries = [(2, 20), (3, 30)] ∧
    ((((((tlbInit 2 4096).insert (1 * 4096) (10 * 4096)).insert (2 * 4096)
        (20 * 4096)).insert (3 * 4096) (30 * 4096)).lookup (1 * 4096 + 7)).1 =
      (none, false)) ∧
    ((((((tlbInit 2 4096).insert (1 * 4096) (10 * 4096)).insert (2 * 4096)
        (20 * 4096)).insert (3 * 4096) (30 * 4096)).lookup (2 * 4096 + 7)).1 =
      (some (20 * 4096 + 7), true)) ∧
    ((((((tlbInit 2 4096).insert (1 * 4096) (10 * 4096)).insert (2 * 4096)
        (20 * 4096)).insert (3 * 4096) (30 * 4096)).lookup (3 * 4096)).1 =
      (some (30 * 4096), true)) := by
  refine ⟨by decide, by decide, by decide, by decide⟩

/-- C10: `lookup` never changes the translation table — only the
access/hit/miss counters move — and it also leaves the capacity and
page size alone; `insert` and `flush` are the only operations touching
`entries`. -/
theorem C10_lookup_preserves_entries (tlb : L2TLB) (virtual_address : Nat) :
    ((tlb.lookup virtual_address).2.entries = tlb.entries) ∧
    ((tlb.lookup virtual_address).2.size = tlb.size) ∧
    ((tlb.lookup virtual_address).2.page_size = tlb.page_size) := by
  cases h : dictGet (virtual_address / tlb.page_size) tlb.entries <;>
    simp [L2TLB.lookup, h]

/-! ## Host memory (`cpu/cpu_mem.py`, class `CPUMemory`) -/

structure CPUMemory where
  size : Int
  memory : List Nat
  deriving DecidableEq

/-- `CPUMemory.read`: bounds-checked slice; unlike the DRAM side, the
check covers `address + size`. -/
def CPUMemory.read (address size : Int) (cpu : CPUMemory) : Except PyErr (List Nat) :=
  if address < 0 ∨ address + size > cpu.size then .error .indexError
  else .ok ((cpu.memory.drop address.toNat).take size.toNat)

/-! ## DMA engine (`gpu/controlling/direct_mem_access.py`, class
`DMAEngine`) -/

structure DMAEngine where
  id : Nat
  cpu : CPUMemory
  dram : DRAMController
  kernel : Option KernelCmd
  available : Bool
  deriving DecidableEq

/-- `DMAEngine.copy_from_cpu_to_dram`: read the bytes from host memory,
then call `self.dram.write(dst_addr, data)` — but `DRAMController`
defines `load`/`store` and no `write`, so that call raises
`AttributeError`.  Neither path mutates the engine or the DRAM. -/
def DMAEngine.copy_from_cpu_to_dram (e : DMAEngine) (src_addr _dst_addr size : Int) :
    Option PyErr :=
  match e.cpu.read src_addr size with
  | .error err => some err
  | .ok _data => some .attributeError

/-- `DMAEngine.demand`: with no busy check, store the command and mark
the engine busy, attempt the copy, and only on a completed copy clear
the command and mark idle again (unreachable, since the copy always
raises); an error propagates with the engine left busy. -/
def DMAEngine.demand (k : KernelCmd) (e : DMAEngine) : DMAEngine × Option PyErr :=
  let e1 := { e with kernel := some k, available := false }
  match e1.copy_from_cpu_to_dram k.src_addr k.dst_addr k.size with
  | some err => (e1, some err)
  | none => ({ e1 with kernel := none, available := true }, none)

/-- `DMAEngine.update_available`. -/
def DMAEngine.update_available (e : DMAEngine) : DMAEngine :=
  { e with available := e.kernel.isNone }

/-- A DMA engine as built by `__init__`: idle, over an 8-byte host
memory and an 8-byte DRAM. -/
def idleDMA : DMAEngine :=
  { id := 0
    cpu := { size := 8, memory := List.replicate 8 0 }
    dram := dramInit 8
    kernel := none
    available := true }

/-- C6: `demand` on an idle engine with an in-bounds copy marks the
engine busy and then raises `AttributeError` at `self.dram.write`
(`DRAMController` has no `write` method), so the engine is never marked
idle again; and a further `demand` on the now-busy engine does not fail
with any busy error — it silently replaces the held command. -/
theorem C6_demand_never_completes_and_overwrites :
    (idleDMA.demand copyCmd).2 = some .attributeError ∧
    (idleDMA.demand copyCmd).1.available = false ∧
    (idleDMA.demand copyCmd).1.kernel = some copyCmd ∧
    ((idleDMA.demand copyCmd).1.demand copyCmd2).1.kernel = some copyCmd2 ∧
    copyCmd2 ≠ copyCmd := by
  refine ⟨rfl, rfl, rfl, rfl, by decide⟩

/-! ## Async compute engine (`gpu/controlling/async_compute_engine.py`,
class `AsyncComputeEngine`)

The `resource_limits` dict is a constant table; only
`max_active_workgroups = 64` is ever read (by `break_kernel`).  The
per-kernel counters are Python ints keyed by kernel name.
`workgroup_queue_state` takes the two values `"empty"`/`"active"`,
modelled as the boolean `queue_active`. -/

structure AsyncComputeEngine where
  id : Nat
  kernel : Option KernelCmd
  available : Bool
  workgroup_queue : List Workgroup
  queue_active : Bool
  active_kernel_workgroups : List (Nat × Int)
  deriving DecidableEq

/-- `AsyncComputeEngine.__init__`. -/
def aceInit (id : Nat) : AsyncComputeEngine :=
  { id := id
    kernel := none
    available := true
    workgroup_queue := []
    queue_active := false
    active_kernel_workgroups := [] }

/-- `resource_limits["max_active_workgroups"]`. -/
def max_active_workgroups : Nat := 64

/-- `AsyncComputeEngine.update_available`: available iff no kernel is
held. -/
def AsyncComputeEngine.update_available (a : AsyncComputeEngine) : AsyncComputeEngine :=
  { a with available := a.kernel.isNone }

/-- `AsyncComputeEngine.update_workgroup_queue_state`: `"active"` iff
the queue is non-empty. -/
def AsyncComputeEngine.update_workgroup_queue_state (a : AsyncComputeEngine) :
    AsyncComputeEngine :=
  { a with queue_active := decide (a.workgroup_queue.length ≠ 0) }

/-- `AsyncComputeEngine.update_state`. -/
def AsyncComputeEngine.update_state (a : AsyncComputeEngine) : AsyncComputeEngine :=
  a.update_available.update_workgroup_queue_state

/-- `AsyncComputeEngine.break_kernel`: `ValueError` when no kernel is
held; otherwise extend the queue with `min(100, max_active_workgroups)`
workgroups of the held kernel and set (not add to) that kernel's
active-workgroup count to the number created. -/
def AsyncComputeEngine.break_kernel (a : AsyncComputeEngine) :
    Except PyErr AsyncComputeEngine :=
  match a.kernel with
  | none => .error .valueError
  | some k =>
      let workgroup_num := min 100 max_active_workgroups
      let workgroups := List.replicate workgroup_num (⟨k⟩ : Workgroup)
      .ok { a with
              workgroup_queue := a.workgroup_queue ++ workgroups
              active_kernel_workgroups :=
                dictSet k.name (workgroup_num : Int) a.active_kernel_workgroups }

/-- `AsyncComputeEngine.receive_kernel`: bind the kernel, initialise
its counter to 0 if absent, decompose it into workgroups, refresh the
availability and queue-state flags. -/
def AsyncComputeEngine.receive_kernel (k : KernelCmd) (a : AsyncComputeEngine) :
    AsyncComputeEngine × Option PyErr :=
  let a1 := { a with kernel := some k }
  let a2 :=
    if (dictGet k.name a1.active_kernel_workgroups).isNone then
      { a1 with active_kernel_workgroups := dictSet k.name 0 a1.active_kernel_workgroups }
    else a1
  match a2.break_kernel with
  | .error err => (a2, some err)
  | .ok a3 => (a3.update_state, none)

/-- `AsyncComputeEngine.finish_kernel`: drop the held kernel's counter
entry if present, clear the kernel, refresh the flags. -/
def AsyncComputeEngine.finish_kernel (a : AsyncComputeEngine) : AsyncComputeEngine :=
  let a1 :=
    match a.kernel with
    | some k =>
        if (dictGet k.name a.active_kernel_workgroups).isSome then
          { a with active_kernel_workgroups := dictDel k.name a.active_kernel_workgroups }
        else a
    | none => a
  ({ a1 with kernel := none }).update_state

/-- `AsyncComputeEngine.pass_workgroup`: only while the queue state is
`"active"`, pop the head workgroup (`IndexError` on an empty deque) and
hand it to the given shader pipe input.  When the sink's
`get_workgroup` returns (always `True`), decrement the counter of the
*currently held* kernel if it has one and finish the kernel once the
queue is empty; when the sink raises (`NameError`, whenever its first
compute unit admits a wavefront), the exception propagates with the
workgroup already popped and the decrement and `finish_kernel`
skipped. -/
def AsyncComputeEngine.pass_workgroup (spi : ShaderPipeInput) (a : AsyncComputeEngine) :
    (AsyncComputeEngine × ShaderPipeInput) × Option PyErr :=
  if a.queue_active then
    match a.workgroup_queue with
    | [] => ((a, spi), some .indexError)
    | w :: rest =>
        let a1 := { a with workgroup_queue := rest }
        let r := spi.get_workgroup w
        match r.1 with
        | .error e => ((a1, r.2), some e)
        | .ok b =>
            if b then
              let a2 :=
                match a1.kernel with
                | some k =>
                    match dictGet k.name a1.active_kernel_workgroups with
                    | some v =>
                        { a1 with active_kernel_workgroups :=
                            dictSet k.name (v - 1) a1.active_kernel_workgroups }
                    | none => a1
                | none => a1
              if a2.workgroup_queue.length = 0 then ((a2.finish_kernel, r.2), none)
              else ((a2, r.2), none)
            else ((a1, r.2), none)
  else ((a, spi), none)

/-- A call in a client-visible history of an `AsyncComputeEngine`; each
`pass_workgroup` call names the shader pipe input handed to it. -/
inductive ACEOp where
  | receive (k : KernelCmd)
  | pass (spi : ShaderPipeInput)

/-- Run a sequence of `receive_kernel` / `pass_workgroup` calls.  A
raised error propagates to the caller, but the engine object and the
mutations made before the raise persist, so the history continues on
the returned engine state. -/
def runACE : AsyncComputeEngine → List ACEOp → AsyncComputeEngine
  | a, [] => a
  | a, op :: rest =>
      let a1 := match op with
        | .receive k => (a.receive_kernel k).1
        | .pass spi => ((a.pass_workgroup spi).1).1
      runACE a1 rest

/-- A sink with no compute units: its `get_workgroup` admits nothing
and returns `True` cleanly. -/
def emptySink : ShaderPipeInput := ⟨[], none⟩

/-- A sink holding one fresh compute unit: its `get_workgroup` admits
one wavefront and raises `NameError`. -/
def cuSink : ShaderPipeInput := ⟨[[cuInit]], none⟩

set_option maxRecDepth 100000 in
/-- C7 counterexample, refuting both conjuncts of the claim.  First:
receiving kernel 1, then kernel 2 while kernel 1's 64 workgroups are
still queued, then passing 65 workgroups to a unit-less sink drives
kernel 2's counter to −1 (each clean hand-off decrements the currently
held kernel's counter although the popped workgroups belong to kernel
1).  Second: even a disciplined drain — one kernel received while idle,
then 64 passes — against a sink that admits (and so raises `NameError`
after the pop, skipping the decrement) empties the queue with the
counter still at 64, so a counter is non-zero while the queue is
empty. -/
theorem C7_counter_negative_or_stuck :
    dictGet 2 (runACE (aceInit 0)
        ([.receive (launchCmd 1), .receive (launchCmd 2)] ++
          List.replicate 65 (.pass emptySink))).active_kernel_workgroups = some (-1) ∧
    (runACE (aceInit 0)
        (.receive (launchCmd 1) :: List.replicate 64 (.pass cuSink))).workgroup_queue = [] ∧
    dictGet 1 (runACE (aceInit 0)
        (.receive (launchCmd 1) :: List.replicate 64 (.pass cuSink))).active_kernel_workgroups =
      some 64 := by
  refine ⟨rfl, rfl, rfl⟩

theorem get_workgroup_ok (wg : Workgroup) (spi : ShaderPipeInput) (b : Bool)
    (h : (ShaderPipeInput.get_workgroup wg spi).1 = .ok b) : b = true := by
  cases h2 : (({ spi with workgroup := some wg } :
      ShaderPipeInput).break_workgroup_into_wavefronts).2 with
  | none =>
      simp only [ShaderPipeInput.get_workgroup, h2] at h
      exact (Except.ok.inj h).symm
  | some e =>
      simp only [ShaderPipeInput.get_workgroup, h2] at h
      cases h

/-- ACE states reachable through the command processor's dispatch
discipline: engines start fresh, `pass_workgroup` may fire at any time
with any sink, and `receive_kernel` only fires on an engine whose
availability flag is set (the only engines the availability pool can
re-admit). -/
inductive ReachACE : AsyncComputeEngine → Prop where
  | init (id : Nat) : ReachACE (aceInit id)
  | recv {a : AsyncComputeEngine} (k : KernelCmd) :
      ReachACE a → a.available = true → ReachACE (a.receive_kernel k).1
  | pass {a : AsyncComputeEngine} (spi : ShaderPipeInput) :
      ReachACE a → ReachACE ((a.pass_workgroup spi).1).1

/-- The state invariant of a disciplined ACE: either idle with an empty
queue and no counters, or busy on one kernel whose single counter is at
least the queue length (equal until some hand-off raises, strictly
greater from then on). -/
def ACEInv (a : AsyncComputeEngine) : Prop :=
  (a.kernel = none ∧ a.workgroup_queue = [] ∧ a.active_kernel_workgroups = [] ∧
    a.queue_active = false ∧ a.available = true) ∨
  (∃ k n, a.kernel = some k ∧ a.active_kernel_workgroups = [(k.name, n)] ∧
    (a.workgroup_queue.length : Int) ≤ n ∧ a.queue_active = true ∧ a.available = false)

theorem aceInv_init (id : Nat) : ACEInv (aceInit id) :=
  Or.inl (by simp [aceInit])

theorem aceInv_recv (a : AsyncComputeEngine) (k : KernelCmd) (hInv : ACEInv a)
    (hav : a.available = true) : ACEInv (a.receive_kernel k).1 := by
  obtain ⟨aid, ak, aav, aq, aqa, ac⟩ := a
  rcases hInv with ⟨hk, hq, hc, hqa, -⟩ | ⟨k0, n, hk, hc, hlen, hqa, hav'⟩
  · simp only at hk hq hc hqa
    subst hk; subst hq; subst hc; subst hqa
    right
    refine ⟨k, 64, ?_, ?_, ?_, ?_, ?_⟩ <;>
      simp [AsyncComputeEngine.receive_kernel, AsyncComputeEngine.break_kernel,
        AsyncComputeEngine.update_state, AsyncComputeEngine.update_available,
        AsyncComputeEngine.update_workgroup_queue_state, max_active_workgroups,
        dictGet, dictSet]
  · simp only at hav hav'
    rw [hav'] at hav
    cases hav

theorem aceInv_pass (a : AsyncComputeEngine) (spi : ShaderPipeInput) (hInv : ACEInv a) :
    ACEInv ((a.pass_workgroup spi).1).1 := by
  obtain ⟨aid, ak, aav, aq, aqa, ac⟩ := a
  rcases hInv with ⟨hk, hq, hc, hqa, hav⟩ | ⟨k0, n, hk, hc, hlen, hqa, hav⟩
  · simp only at hk hq hc hqa hav
    subst hk; subst hq; subst hc; subst hqa; subst hav
    left
    refine ⟨?_, ?_, ?_, ?_, ?_⟩ <;> simp [AsyncComputeEngine.pass_workgroup]
  · simp only at hk hc hqa hav
    simp only at hlen
    subst hk; subst hc; subst hqa; subst hav
    cases aq with
    | nil =>
        right
        refine ⟨k0, n, ?_, ?_, ?_, ?_, ?_⟩ <;>
          simp [AsyncComputeEngine.pass_workgroup] <;> simpa using hlen
    | cons w rest =>
        simp only [List.length_cons] at hlen
        rcases hres : (ShaderPipeInput.get_workgroup w spi).1 with e | b
        · right
          refine ⟨k0, n, ?_, ?_, ?_, ?_, ?_⟩ <;>
            simp [AsyncComputeEngine.pass_workgroup, hres] <;> push_cast at hlen ⊢ <;> omega
        · have hb := get_workgroup_ok w spi b hres
          subst hb
          cases rest with
          | nil =>
              left
              refine ⟨?_, ?_, ?_, ?_, ?_⟩ <;>
                simp [AsyncComputeEngine.pass_workgroup, hres,
                  AsyncComputeEngine.finish_kernel, AsyncComputeEngine.update_state,
                  AsyncComputeEngine.update_available,
                  AsyncComputeEngine.update_workgroup_queue_state, dictGet, dictSet, dictDel]
          | cons w2 rest2 =>
              simp only [List.length_cons] at hlen
              right
              refine ⟨k0, n - 1, ?_, ?_, ?_, ?_, ?_⟩ <;>
                simp [AsyncComputeEngine.pass_workgroup, hres, dictGet, dictSet] <;>
                push_cast at hlen ⊢ <;> omega

theorem reachACE_inv (a : AsyncComputeEngine) (h : ReachACE a) : ACEInv a := by
  induction h with
  | init id => exact aceInv_init id
  | recv k _ hav ih => exact aceInv_recv _ k ih hav
  | pass spi _ ih => exact aceInv_pass _ spi ih

/-- C7 amended: in every ACE state reachable when `receive_kernel` is
only invoked on an available (idle) engine — the discipline the
availability pools enforce — every per-kernel active-workgroup counter
is non-negative, and when every counter is zero the workgroup queue is
empty.  The converse direction of the claim fails even then: a
hand-off that raises (the sink admitting a wavefront) pops a workgroup
without decrementing, so the queue can drain with the counter still
positive — see the counterexample, whose unrestricted traces also
drive a counter negative. -/
theorem C7_counters_nonneg_and_zero_implies_drained (a : AsyncComputeEngine)
    (h : ReachACE a) :
    (∀ p ∈ a.active_kernel_workgroups, 0 ≤ p.2) ∧
    ((∀ p ∈ a.active_kernel_workgroups, p.2 = 0) → a.workgroup_queue = []) := by
  rcases reachACE_inv a h with ⟨-, hq, hc, -, -⟩ | ⟨k0, n, -, hc, hlen, -, -⟩
  · rw [hq, hc]
    simp
  · rw [hc]
    constructor
    · intro p hp
      simp only [List.mem_singleton] at hp
      subst hp
      simp only
      omega
    · intro hall
      have hn := hall (k0.name, n) (by simp)
      simp only at hn
      have hlen0 : a.workgroup_queue.length = 0 := by omega
      exact List.length_eq_zero.mp hlen0

/-- C7 amended witness: the state reached by one disciplined
`receive_kernel` on a fresh engine satisfies both conclusions. -/
theorem C7_counters_nonneg_and_zero_implies_drained_witness :
    (∀ p ∈ ((aceInit 0).receive_kernel (launchCmd 1)).1.active_kernel_workgroups, 0 ≤ p.2) ∧
    ((∀ p ∈ ((aceInit 0).receive_kernel (launchCmd 1)).1.active_kernel_workgroups, p.2 = 0) →
      ((aceInit 0).receive_kernel (launchCmd 1)).1.workgroup_queue = []) :=
  C7_counters_nonneg_and_zero_implies_drained ((aceInit 0).receive_kernel (launchCmd 1)).1
    (ReachACE.recv (launchCmd 1) (ReachACE.init 0) rfl)

/-! ## Command processor (`gpu/controlling/command_processor.py`, class
`CommandProcessor`)

Engine dicts are keyed by engine id; the availability pools are deques
of ids.  `find_available_dma` / `find_available_ace` simply `popleft`,
raising `IndexError` on an empty deque; `process_command` calls them
directly without first running `add_available_dma` /
`add_available_ace`. -/

structure CommandProcessor where
  dma_engines : List (Nat × DMAEngine)
  async_compute_engines : List (Nat × AsyncComputeEngine)
  available_dma : List Nat
  available_ace : List Nat
  command_queue : List KernelCmd
  deriving DecidableEq

/-- `CommandProcessor.enqueue_command`. -/
def CommandProcessor.enqueue_command (k : KernelCmd) (cp : CommandProcessor) :
    CommandProcessor :=
  { cp with command_queue := cp.command_queue ++ [k] }

/-- `CommandProcessor.find_available_dma`: `popleft` on the DMA pool;
`IndexError` when the pool is empty. -/
def CommandProcessor.find_available_dma (cp : CommandProcessor) :
    Except PyErr (Nat × CommandProcessor) :=
  match cp.available_dma with
  | [] => .error .indexError
  | i :: rest => .ok (i, { cp with available_dma := rest })

/-- `CommandProcessor.find_available_ace`: `popleft` on the ACE pool;
`IndexError` when the pool is empty. -/
def CommandProcessor.find_available_ace (cp : CommandProcessor) :
    Except PyErr (Nat × CommandProcessor) :=
  match cp.available_ace with
  | [] => .error .indexError
  | i :: rest => .ok (i, { cp with available_ace := rest })

/-- `CommandProcessor.add_available_dma`: scan the engine dict in order
and append the id of every currently idle DMA engine to the pool. -/
def CommandProcessor.add_available_dma (cp : CommandProcessor) : CommandProcessor :=
  { cp with available_dma :=
      cp.available_dma ++ (cp.dma_engines.filter (fun p => p.2.available)).map (·.1) }

/-- `CommandProcessor.add_available_ace`: likewise for ACEs. -/
def CommandProcessor.add_available_ace (cp : CommandProcessor) : CommandProcessor :=
  { cp with available_ace :=
      cp.available_ace ++
        (cp.async_compute_engines.filter (fun p => p.2.available)).map (·.1) }

/-- `CommandProcessor.demand_to_dma_engine`: forward to the engine of
the given id (`KeyError` if absent from the dict). -/
def CommandProcessor.demand_to_dma_engine (k : KernelCmd) (i : Nat)
    (cp : CommandProcessor) : CommandProcessor × Option PyErr :=
  match dictGet i cp.dma_engines with
  | none => (cp, some .keyError)
  | some e =>
      let r := e.demand k
      ({ cp with dma_engines := dictSet i r.1 cp.dma_engines }, r.2)

/-- `CommandProcessor.demand_to_async_compute_engine`: forward to the
ACE of the given id (`KeyError` if absent from the dict). -/
def CommandProcessor.demand_to_async_compute_engine (k : KernelCmd) (i : Nat)
    (cp : CommandProcessor) : CommandProcessor × Option PyErr :=
  match dictGet i cp.async_compute_engines with
  | none => (cp, some .keyError)
  | some e =>
      let r := e.receive_kernel k
      ({ cp with async_compute_engines := dictSet i r.1 cp.async_compute_engines }, r.2)

/-- `CommandProcessor.process_command`: dispatch on `kernel.type`,
acquiring an id from the matching pool (no refresh first) and
forwarding; unknown types raise `ValueError`. -/
def CommandProcessor.process_command (k : KernelCmd) (cp : CommandProcessor) :
    CommandProcessor × Option PyErr :=
  if k.type = "memory_copy" then
    match cp.find_available_dma with
    | .error e => (cp, some e)
    | .ok (i, cp1) => cp1.demand_to_dma_engine k i
  else if k.type = "kernel_launch" then
    match cp.find_available_ace with
    | .error e => (cp, some e)
    | .ok (i, cp1) => cp1.demand_to_async_compute_engine k i
  else (cp, some .valueError)

/-- A command processor whose DMA pool is empty although its one DMA
engine is idle (as after one `find_available_dma` with no refresh). -/
def cpEmptyPool : CommandProcessor :=
  { dma_engines := [(0, idleDMA)]
    async_compute_engines := []
    available_dma := []
    available_ace := []
    command_queue := [] }

/-- C4 counterexample: with the DMA pool empty, `process_command` on a
`memory_copy` raises `IndexError` (pop from an empty deque) rather than
a handled `NoEngineAvailable`, even though the dict holds an idle
engine that a refresh (`add_available_dma`) would have re-admitted to
the pool — so pools are not refreshed before the dispatch attempt. -/
theorem C4_empty_pool_raises_index_error :
    (cpEmptyPool.process_command copyCmd).2 = some .indexError ∧
    (cpEmptyPool.process_command copyCmd).1 = cpEmptyPool ∧
    (dictGet 0 cpEmptyPool.dma_engines).map DMAEngine.available = some true ∧
    cpEmptyPool.add_available_dma.available_dma = [0] := by
  refine ⟨rfl, rfl, rfl, rfl⟩

/-- C4 amended: when the matching availability pool is empty,
`process_command` raises `IndexError` and forwards nothing (the
processor state is returned unchanged, so the caller still holds the
command); the pools are replenished only by explicit
`add_available_dma` / `add_available_ace` calls, which
`process_command` never makes. -/
theorem C4_empty_pool_dispatch_fails (cp : CommandProcessor) (k : KernelCmd) :
    (k.type = "memory_copy" → cp.available_dma = [] →
      cp.process_command k = (cp, some .indexError)) ∧
    (k.type = "kernel_launch" → cp.available_ace = [] →
      cp.process_command k = (cp, some .indexError)) := by
  constructor
  · intro ht hd
    simp [CommandProcessor.process_command, CommandProcessor.find_available_dma, ht, hd]
  · intro ht ha
    simp [CommandProcessor.process_command, CommandProcessor.find_available_ace, ht, ha]

/-- C4 amended witness: on the concrete empty-pool processor, both a
`memory_copy` and a `kernel_launch` dispatch raise `IndexError` with
the state unchanged. -/
theorem C4_empty_pool_dispatch_fails_witness :
    cpEmptyPool.process_command copyCmd = (cpEmptyPool, some .indexError) ∧
    cpEmptyPool.process_command (launchCmd 1) = (cpEmptyPool, some .indexError) :=
  ⟨(C4_empty_pool_dispatch_fails cpEmptyPool copyCmd).1 rfl rfl,
   (C4_empty_pool_dispatch_fails cpEmptyPool (launchCmd 1)).2 rfl rfl⟩
